import Mathlib

/-!
Shallow embedding of the dataset-loading adapters of `data/voc0712.py`
(CLPR.pytorch): VOC XML annotation transform, VOC detection index builder
and item retrieval, the tab-separated OCR dataset, and the license-plate
filename-encoded dataset.  Pixel coordinates are embedded as `ℤ`, divisions
as exact rational arithmetic over `ℚ`; Python exceptions are embedded as an
explicit error type through `Except`.
-/

namespace CLPR

/-- Python exceptions that the embedded code can raise. -/
inductive PyError where
  | fileNotFound (path : String)
  | indexError
  | keyError
  | valueError
  | unboundLocalError (var : String)
deriving DecidableEq

instance {ε α : Type} [DecidableEq ε] [DecidableEq α] : DecidableEq (Except ε α) :=
  fun a b =>
    match a, b with
    | .ok x, .ok y =>
      if h : x = y then .isTrue (by rw [h]) else .isFalse (by intro hh; cases hh; exact h rfl)
    | .error x, .error y =>
      if h : x = y then .isTrue (by rw [h]) else .isFalse (by intro hh; cases hh; exact h rfl)
    | .ok _, .error _ => .isFalse (by intro h; cases h)
    | .error _, .ok _ => .isFalse (by intro h; cases h)

/-- Python whitespace, as stripped by `str.strip` and friends. -/
def isPySpace (c : Char) : Bool :=
  c = ' ' || c = '\t' || c = '\n' || c = '\r' || c = '\x0b' || c = '\x0c'

/-- Python `str.lstrip()`. -/
def pyLStrip (s : String) : String :=
  String.mk (s.toList.dropWhile isPySpace)

/-- Python `str.rstrip()`. -/
def pyRStrip (s : String) : String :=
  String.mk ((s.toList.reverse.dropWhile isPySpace).reverse)

/-- Python `str.strip()`. -/
def pyStrip (s : String) : String :=
  pyLStrip (pyRStrip s)

/-- Python `str.lower()` (over the ASCII class names that occur here). -/
def pyLower (s : String) : String :=
  String.mk (s.toList.map Char.toLower)

/-- `str.split(sep)` for a one-character separator, over the char list. -/
def splitChars (c : Char) : List Char → List (List Char)
  | [] => [[]]
  | x :: xs =>
    let r := splitChars c xs
    if x = c then [] :: r
    else
      match r with
      | [] => [[x]]
      | y :: ys => (x :: y) :: ys

/-- Python `str.split(sep)` for a one-character separator. -/
def pySplit (s : String) (c : Char) : List String :=
  (splitChars c s.toList).map String.mk

/-- Digit value of a decimal digit character. -/
def pyDigit? (c : Char) : Option ℕ :=
  if c.isDigit then some (c.toNat - 48) else none

/-- Decimal value of a nonempty digit string. -/
def natOfChars (l : List Char) : Option ℕ :=
  if l.isEmpty then none
  else l.foldl (fun acc c => acc.bind (fun n => (pyDigit? c).map (fun d => 10 * n + d))) (some 0)

/-- Python `int(s)` on an optionally-signed decimal string; `none` models
`ValueError`. -/
def pyToInt? (s : String) : Option ℤ :=
  match s.toList with
  | '-' :: rest => (natOfChars rest).map (fun n => -(n : ℤ))
  | l => (natOfChars l).map (fun n => (n : ℤ))

/-- One parsed `<object>` element of a VOC XML annotation: the integer value
of its `difficult` flag, the raw `name` text, and the four integer values of
`bndbox/{xmin,ymin,xmax,ymax}`. -/
structure VOCObject where
  difficult : ℤ
  name : String
  xmin : ℤ
  ymin : ℤ
  xmax : ℤ
  ymax : ℤ
deriving DecidableEq

/-- `VOC_CLASSES` tuple (voc0712.py lines 24-29). -/
def VOC_CLASSES : List String :=
  ["aeroplane", "bicycle", "bird", "boat",
   "bottle", "bus", "car", "cat", "chair",
   "cow", "diningtable", "dog", "horse",
   "motorbike", "person", "pottedplant",
   "sheep", "sofa", "train", "tvmonitor"]

/-- `dict(zip(VOC_CLASSES, range(len(VOC_CLASSES))))` (line 49-50),
embedded as an association list looked up with `List.lookup`. -/
def defaultClassToInd : List (String × ℕ) :=
  VOC_CLASSES.zip (List.range VOC_CLASSES.length)

/-- State of a `VOCAnnotationTransform` object after `__init__`
(lines 48-51). -/
structure VOCAnnTransform where
  class_to_ind : List (String × ℕ)
  keep_difficult : Bool
deriving DecidableEq

/-- The default-constructed transform `VOCAnnotationTransform()`. -/
def VOCAnnTransform.mkDefault : VOCAnnTransform :=
  ⟨defaultClassToInd, false⟩

/-- Body of the coordinate loop (lines 71-75): position `i` in the
`['xmin','ymin','xmax','ymax']` enumeration selects the divisor,
`cur_pt / width if i % 2 == 0 else cur_pt / height`. -/
def scalePoint (i : ℕ) (cur_pt : ℤ) (width height : ℚ) : ℚ :=
  if i % 2 = 0 then (cur_pt : ℚ) / width else (cur_pt : ℚ) / height

/-- The enumerate-loop over a coordinate list, carrying the position. -/
def normalizeFrom (i : ℕ) (width height : ℚ) : List ℤ → List ℚ
  | [] => []
  | pt :: rest => scalePoint i pt width height :: normalizeFrom (i + 1) width height rest

/-- Positional normalization of a coordinate list (the `for i, pt in
enumerate(pts)` loop of lines 69-75, without the `-1` decrement). -/
def normalizeCoords (pts : List ℤ) (width height : ℚ) : List ℚ :=
  normalizeFrom 0 width height pts

/-- The normalizer as a pure function: raw box, width, height, class index
to `[xmin/W, ymin/H, xmax/W, ymax/H, class]` (lines 69-78; the same
positional pattern is written out literally at lines 211-212). -/
def normalizeBox (box : List ℤ) (width height : ℚ) (label : ℚ) : List ℚ :=
  normalizeCoords box width height ++ [label]

/-- The four scaled `bndbox` entries of one object (lines 69-75):
each XML integer is decremented by 1, then scaled positionally. -/
def objBndbox (obj : VOCObject) (width height : ℚ) : List ℚ :=
  normalizeCoords [obj.xmin - 1, obj.ymin - 1, obj.xmax - 1, obj.ymax - 1] width height

/-- `VOCAnnotationTransform.__call__` (lines 53-81): difficult objects are
skipped when `keep_difficult` is false; the class name is lowered, trimmed
and looked up (`KeyError` when absent); each kept object contributes
`bndbox ++ [label]` in iteration order. -/
def VOCAnnTransform.call (t : VOCAnnTransform) (width height : ℚ) :
    List VOCObject → Except PyError (List (List ℚ))
  | [] => .ok []
  | obj :: rest =>
    if t.keep_difficult = false ∧ obj.difficult = 1 then
      VOCAnnTransform.call t width height rest
    else
      match t.class_to_ind.lookup (pyStrip (pyLower obj.name)) with
      | none => .error .keyError
      | some label_idx =>
        (VOCAnnTransform.call t width height rest).map
          (fun res => (objBndbox obj width height ++ [(label_idx : ℚ)]) :: res)

/-- `VOCDetection.__init__` id building (lines 113-117): for each
`(year, name)` selector, open `<root>/VOC<year>/ImageSets/Main/<name>.txt`
and append one `(rootpath, stripped line)` id per line.  The filesystem is
abstracted as a partial map from path to line list; `open` on a missing
path raises `FileNotFoundError`. -/
def buildIds (fs : String → Option (List String)) (root : String) :
    List (String × String) → Except PyError (List (String × String))
  | [] => .ok []
  | (year, name) :: rest =>
    let rootpath := root ++ "/VOC" ++ year
    match fs (rootpath ++ "/ImageSets/Main/" ++ name ++ ".txt") with
    | none => .error (.fileNotFound (rootpath ++ "/ImageSets/Main/" ++ name ++ ".txt"))
    | some ls =>
      (buildIds fs root rest).map (fun ids => ls.map (fun l => (rootpath, pyStrip l)) ++ ids)

/-- `VOCDetection.pull_anno` (lines 161-176): the target transform is
applied with `width = height = 1`. -/
def pull_anno_gt (t : VOCAnnTransform) (anno : List VOCObject) :
    Except PyError (List (List ℚ)) :=
  t.call 1 1 anno

/-- Expected value for `pull_anno` as the spec's words describe it:
un-normalized 0-based pixel coordinates, each equal to the XML integer
minus 1, with the looked-up label appended. -/
def rawPixelGT (t : VOCAnnTransform) : List VOCObject → Except PyError (List (List ℚ))
  | [] => .ok []
  | obj :: rest =>
    if t.keep_difficult = false ∧ obj.difficult = 1 then
      rawPixelGT t rest
    else
      match t.class_to_ind.lookup (pyStrip (pyLower obj.name)) with
      | none => .error .keyError
      | some label_idx =>
        (rawPixelGT t rest).map
          (fun res =>
            [((obj.xmin - 1 : ℤ) : ℚ), ((obj.ymin - 1 : ℤ) : ℚ),
             ((obj.xmax - 1 : ℤ) : ℚ), ((obj.ymax - 1 : ℤ) : ℚ), (label_idx : ℚ)] :: res)

/-- A pixel as stored by the image decoder: channel triple in storage
(BGR) order. -/
abbrev Px (α : Type) := α × α × α

/-- A decoded image: rows of pixels, i.e. axes (H, W, C). -/
abbrev Image (α : Type) := List (List (Px α))

/-- `img[:, :, (2, 1, 0)]` (lines 141, 218, 290): reverse the channel axis
of every pixel. -/
def channelReverse {α : Type} (img : Image α) : Image α :=
  img.map (fun row => row.map (fun p => (p.2.2, p.2.1, p.1)))

/-- `.permute(2, 0, 1)` (lines 144, 232, 307): move the channel axis first,
producing one (H, W) plane per channel. -/
def permuteCHW {α : Type} (img : Image α) :
    List (List α) × List (List α) × List (List α) :=
  (img.map (fun row => row.map (fun p => p.1)),
   img.map (fun row => row.map (fun p => p.2.1)),
   img.map (fun row => row.map (fun p => p.2.2)))

/-- The image path of `VOCDetection.pull_item` (lines 137-144) and of the
OCR/plate `__getitem__`s: the channel reversal happens inside the
`if self.transform is not None` branch, after the transform; the axis
permutation happens at the return in both cases. -/
def pull_item_img {α : Type} (transform : Option (Image α → Image α)) (img : Image α) :
    List (List α) × List (List α) × List (List α) :=
  match transform with
  | some f => permuteCHW (channelReverse (f img))
  | none => permuteCHW img

/-- Signature of the injected augmentation transform
`self.transform(img, boxes, labels)` (lines 216, 288). -/
abbrev AugTransform :=
  Image ℚ → List (List ℚ) → List ℚ → Image ℚ × List (List ℚ) × List ℚ

/-- `np.hstack((boxes, np.expand_dims(labels, axis=1)))` (lines 220, 292)
for row-aligned boxes and labels. -/
def hstackLabels (boxes : List (List ℚ)) (labels : List ℚ) : List (List ℚ) :=
  List.zipWith (fun b l => b ++ [l]) boxes labels

/-- The `if self.transform is not None` branch of the OCR/plate
`__getitem__`s (lines 214-220, 286-292): the transform is applied to
(image, target[:, :4], target[:, 4]), the image's channel axis is reversed,
and the branch-local `target` becomes the hstack of transformed boxes and
labels.  With no transform the image is untouched and the local `target` is
never assigned (`none`). -/
def augState (tf : Option AugTransform) (img : Image ℚ) (target1 : List (List ℚ)) :
    Image ℚ × Option (List (List ℚ)) :=
  match tf with
  | some g =>
    let out := g img (target1.map (fun r => r.take 4)) (target1.map (fun r => r.getD 4 0))
    (channelReverse out.1, some (hstackLabels out.2.1 out.2.2))
  | none => (img, none)

/-- Pixel lookup in (H, W, C) axes. -/
def pixelAt {α : Type} (img : Image α) (h w : ℕ) : Option (Px α) :=
  img[h]?.bind (fun row => row[w]?)

/-- Entry lookup in one (H, W) plane. -/
def planeAt {α : Type} (p : List (List α)) (h w : ℕ) : Option α :=
  p[h]?.bind (fun row => row[w]?)


/-- The subsample bound of `LPDataset.__init__` (line 256). -/
def LP_CAP : ℕ := 30000

/-- `randperm(len(temp))[:30000].tolist()` (line 256): the permutation is
abstracted as a list `perm`; the selection truncates it to the bound. -/
def lpSelected (perm : List ℕ) : List ℕ :=
  perm.take LP_CAP

/-- `self.data.extend(temp[x] for x in selected)` (lines 257-258). -/
def lpSelect (temp : List String) (perm : List ℕ) : List String :=
  (lpSelected perm).map (fun x => temp.getD x "")

/-- Python index wrap-around: a negative index counts from the end. -/
def pyWrap (i : ℤ) (n : ℕ) : ℤ :=
  if i < 0 then i + n else i

/-- Python list subscription `l[i]`: negative indices wrap once by the
length, anything still out of range raises `IndexError`. -/
def pyIndex {α : Type} (l : List α) (i : ℤ) : Except PyError α :=
  if h : 0 ≤ pyWrap i l.length ∧ (pyWrap i l.length).toNat < l.length then
    .ok (l.get ⟨(pyWrap i l.length).toNat, h.2⟩)
  else .error .indexError

/-- The fields of one tab-separated OCR line that `ImgDataset.__getitem__`
reads (lines 204-211): field 1 raw, fields 2-5 parsed with `int`. -/
structure OCRFields where
  field1 : String
  t0 : ℤ
  t1 : ℤ
  t2 : ℤ
  t3 : ℤ
deriving DecidableEq

/-- `per_label = self.data[idx].rstrip().split('\t')` followed by
`temp = [int(x) for x in per_label[2:6]]` and the `per_label[1]` access
(lines 205, 211, 223): a missing field raises `IndexError`, a non-integer
coordinate raises `ValueError`; both are collapsed to `none` here. -/
def ImgDataset.parseFields (line : String) : Option OCRFields :=
  let per_label := pySplit (pyRStrip line) '\t'
  match per_label.get? 1, (per_label.drop 2).take 4 with
  | some f1, [a, b, c, d] =>
    match pyToInt? a, pyToInt? b, pyToInt? c, pyToInt? d with
    | some t0, some t1, some t2, some t3 => some ⟨f1, t0, t1, t2, t3⟩
    | _, _, _, _ => none
  | _, _ => none

/-- `target1` of line 212: positional normalization, class index 0. -/
def ocrTarget1 (f : OCRFields) (width height : ℚ) : List (List ℚ) :=
  [[(f.t0 : ℚ) / width, (f.t1 : ℚ) / height, (f.t2 : ℚ) / width, (f.t3 : ℚ) / height, 0]]

/-- `ImgDataset.__getitem__` (lines 204-232) with the image decode
abstracted (decoded image and width/height given).  Both branch-local
variables are modelled: `data` is assigned only inside
`if self.target_transform:` (line 225) and read unconditionally at
lines 226-227; `target` is assigned only inside
`if self.transform is not None:` (lines 215, 220) and read unconditionally
by the `return` at line 232.  Reading an unassigned local raises
`UnboundLocalError`, and the `data` reads precede the `target` read.
Returns ((C,H,W) image planes, target, (text, text_length), rois). -/
def ImgDataset.getItem (tf : Option AugTransform) (tt : Option (String → List ℕ × ℕ))
    (line : String) (img : Image ℚ) (width height : ℚ) :
    Except PyError ((List (List ℚ) × List (List ℚ) × List (List ℚ)) ×
      List (List ℚ) × (List ℕ × ℕ) × List ℚ) :=
  match ImgDataset.parseFields line with
  | none => .error .valueError
  | some f =>
    let target1 := ocrTarget1 f width height
    let st := augState tf img target1
    let text := pyLStrip f.field1
    let data : Option (List ℕ × ℕ) :=
      match tt with
      | some g => some (g text)
      | none => none
    match data with
    | none => .error (.unboundLocalError "data")
    | some d =>
      let rois := (target1.getD 0 []).take 4
      match st.2 with
      | none => .error (.unboundLocalError "target")
      | some target => .ok (permuteCHW st.1, target, d, rois)

/-- The three fixed character tables of `LPDataset.__init__`
(lines 262-266). -/
structure LPTables where
  provinces : List String
  alphabets : List String
  ads : List String

/-- The tables exactly as written in the source. -/
def LPTables.mkDefault : LPTables :=
  ⟨["皖", "沪", "津", "渝", "冀", "晋", "蒙", "辽", "吉", "黑", "苏", "浙", "京",
    "闽", "赣", "鲁", "豫", "鄂", "湘", "粤", "桂", "琼", "川", "贵", "云", "藏",
    "陕", "甘", "青", "宁", "新", "警", "学", "O"],
   ["A", "B", "C", "D", "E", "F", "G", "H", "J", "K", "L", "M", "N", "P", "Q",
    "R", "S", "T", "U", "V", "W", "X", "Y", "Z", "O"],
   ["A", "B", "C", "D", "E", "F", "G", "H", "J", "K", "L", "M", "N", "P", "Q",
    "R", "S", "T", "U", "V", "W", "X", "Y", "Z", "0", "1", "2", "3", "4", "5",
    "6", "7", "8", "9", "O"]⟩

/-- `[int(x) for x in l]`: `ValueError` on a non-integer string. -/
def pyIntList (l : List String) : Except PyError (List ℤ) :=
  match l.mapM pyToInt? with
  | some r => .ok r
  | none => .error .valueError

/-- `[tbl[x] for x in l]`: Python-indexed lookup of every entry. -/
def pyMapIndex (tbl : List String) : List ℤ → Except PyError (List String)
  | [] => .ok []
  | x :: xs => do
    let s ← pyIndex tbl x
    let rest ← pyMapIndex tbl xs
    return s :: rest

/-- Holds when the computation ended in some exception. -/
def isError {α : Type} : Except PyError α → Prop
  | .error _ => True
  | .ok _ => False

/-- `LPDataset.__getitem__` (lines 271-307) with the image decode
abstracted (decoded image and width/height given).  The local variable
`data` is bound at line 278 to the `_`-split of filename field 2;
`if self.target_transform:` may rebind it to the transform output
(line 300); `text = data[0]` and `text_length = data[1]` (lines 301-302)
read whichever value `data` holds, so their type depends on the branch:
`Sum.inl` for a coordinate chunk string, `Sum.inr` for transform output.
The branch-local `target` is assigned only inside
`if self.transform is not None:` (lines 287, 292) and is read
unconditionally by the `return` at line 307, after the `data` reads:
reading it unassigned raises `UnboundLocalError`.
Returns ((C,H,W) image planes, target, text, text_length, rois). -/
def LPDataset.getItem (tbl : LPTables) (tf : Option AugTransform)
    (tt : Option (String → List ℕ × ℕ)) (filename : String) (img : Image ℚ)
    (width height : ℚ) :
    Except PyError ((List (List ℚ) × List (List ℚ) × List (List ℚ)) ×
      List (List ℚ) × (String ⊕ List ℕ) × (String ⊕ ℕ) × List ℚ) := do
  let per_name ← pyIndex (pySplit filename '/') (-1)
  let f2 ← pyIndex (pySplit per_name '-') 2
  let data0 := pySplit f2 '_'
  let coor := (data0.map (fun t => pySplit t '&')).flatten
  let temp ← pyIntList coor
  let t0 ← pyIndex temp 0
  let t1 ← pyIndex temp 1
  let t2 ← pyIndex temp 2
  let t3 ← pyIndex temp 3
  let target1 : List (List ℚ) :=
    [[(t0 : ℚ) / width, (t1 : ℚ) / height, (t2 : ℚ) / width, (t3 : ℚ) / height, 0]]
  let st := augState tf img target1
  let f4 ← pyIndex (pySplit per_name '-') 4
  let label ← pyIntList (pySplit f4 '_')
  let l0 ← pyIndex label 0
  let l1 ← pyIndex label 1
  let p0 ← pyIndex tbl.provinces l0
  let a1 ← pyIndex tbl.alphabets l1
  let rest ← pyMapIndex tbl.ads (label.drop 2)
  let text0 := String.join ([p0, a1] ++ rest)
  let textPair ← (match tt with
    | some g =>
      let out := g text0
      Except.ok ((Sum.inr out.1 : String ⊕ List ℕ), (Sum.inr out.2 : String ⊕ ℕ))
    | none => do
      let s0 ← pyIndex data0 0
      let s1 ← pyIndex data0 1
      Except.ok (Sum.inl s0, Sum.inl s1))
  let rois := (target1.getD 0 []).take 4
  match st.2 with
  | none => .error (.unboundLocalError "target")
  | some target => return (permuteCHW st.1, target, textPair.1, textPair.2, rois)

instance : DecidableEq ((List (List ℚ) × List (List ℚ) × List (List ℚ)) ×
    List (List ℚ) × (String ⊕ List ℕ) × (String ⊕ ℕ) × List ℚ) :=
  @instDecidableEqProd _ _ inferInstance inferInstance

/-- Lookup into a row-wise mapped grid is the mapped lookup. -/
theorem getAt_map_map {α β : Type} (g : α → β) (l : List (List α)) (i j : ℕ) :
    ((l.map (fun r => r.map g))[i]?.bind (fun r => r[j]?)) =
      (l[i]?.bind (fun r => r[j]?)).map g := by
  cases h : l[i]? <;> simp [List.getElem?_map, h]

theorem pixelAt_channelReverse {α : Type} (img : Image α) (hh ww : ℕ) :
    pixelAt (channelReverse img) hh ww =
      (pixelAt img hh ww).map (fun p => (p.2.2, p.2.1, p.1)) :=
  getAt_map_map _ _ _ _

theorem planeAt_permute1 {α : Type} (img : Image α) (hh ww : ℕ) :
    planeAt (permuteCHW img).1 hh ww = (pixelAt img hh ww).map (fun p => p.1) :=
  getAt_map_map _ _ _ _

theorem planeAt_permute2 {α : Type} (img : Image α) (hh ww : ℕ) :
    planeAt (permuteCHW img).2.1 hh ww = (pixelAt img hh ww).map (fun p => p.2.1) :=
  getAt_map_map _ _ _ _

theorem planeAt_permute3 {α : Type} (img : Image α) (hh ww : ℕ) :
    planeAt (permuteCHW img).2.2 hh ww = (pixelAt img hh ww).map (fun p => p.2.2) :=
  getAt_map_map _ _ _ _

/-- C1: the normalizer returns exactly `[xmin/W, ymin/H, xmax/W, ymax/H, c]`,
dividing even-positioned coordinates by the width and odd-positioned ones by
the height, with no clamping: the box `(0,0)-(W,H)` yields `[0,0,1,1]`, and
out-of-range pixel coordinates yield values outside `[0,1]`. -/
theorem C1_normalizer_positional (xmin ymin xmax ymax W H : ℤ) (c : ℚ)
    (hW : 0 < W) (hH : 0 < H) :
    normalizeBox [xmin, ymin, xmax, ymax] ((W : ℤ) : ℚ) ((H : ℤ) : ℚ) c =
      [(xmin : ℚ) / (W : ℚ), (ymin : ℚ) / (H : ℚ),
       (xmax : ℚ) / (W : ℚ), (ymax : ℚ) / (H : ℚ), c]
    ∧ normalizeBox [0, 0, W, H] ((W : ℤ) : ℚ) ((H : ℤ) : ℚ) c = [0, 0, 1, 1, c]
    ∧ (xmin < 0 →
        (normalizeBox [xmin, ymin, xmax, ymax] ((W : ℤ) : ℚ) ((H : ℤ) : ℚ) c).headD 0 < 0)
    ∧ (W < xmax →
        1 < (normalizeBox [xmin, ymin, xmax, ymax] ((W : ℤ) : ℚ) ((H : ℤ) : ℚ) c).getD 2 0) := by
  have hW' : (0 : ℚ) < (W : ℚ) := by exact_mod_cast hW
  have hH' : (0 : ℚ) < (H : ℚ) := by exact_mod_cast hH
  refine ⟨?_, ?_, ?_, ?_⟩
  · simp [normalizeBox, normalizeCoords, normalizeFrom, scalePoint]
  · simp [normalizeBox, normalizeCoords, normalizeFrom, scalePoint,
      div_self hW'.ne', div_self hH'.ne']
  · intro hx
    simpa [normalizeBox, normalizeCoords, normalizeFrom, scalePoint] using
      div_neg_of_neg_of_pos (by exact_mod_cast hx) hW'
  · intro hx
    simpa [normalizeBox, normalizeCoords, normalizeFrom, scalePoint] using
      (one_lt_div hW').mpr (by exact_mod_cast hx)

unseal Rat.mul Rat.inv in
theorem C1_witness :
    normalizeBox [-1, 0, 3, 3] (((2 : ℤ) : ℚ)) (((2 : ℤ) : ℚ)) 7 =
      [((-1 : ℤ) : ℚ) / ((2 : ℤ) : ℚ), ((0 : ℤ) : ℚ) / ((2 : ℤ) : ℚ),
       ((3 : ℤ) : ℚ) / ((2 : ℤ) : ℚ), ((3 : ℤ) : ℚ) / ((2 : ℤ) : ℚ), 7]
    ∧ normalizeBox [0, 0, 2, 2] (((2 : ℤ) : ℚ)) (((2 : ℤ) : ℚ)) 7 = [0, 0, 1, 1, 7]
    ∧ ((-1 : ℤ) < 0 →
        (normalizeBox [-1, 0, 3, 3] (((2 : ℤ) : ℚ)) (((2 : ℤ) : ℚ)) 7).headD 0 < 0)
    ∧ ((2 : ℤ) < 3 →
        1 < (normalizeBox [-1, 0, 3, 3] (((2 : ℤ) : ℚ)) (((2 : ℤ) : ℚ)) 7).getD 2 0) :=
  C1_normalizer_positional (-1) 0 3 3 2 2 7 (by decide) (by decide)

/-- C2: with `keep_difficult = False` every object whose difficult flag is 1
is excluded (the call equals the call on the difficult-filtered list); with
`keep_difficult = True` every object is included (on success the result has
one row per object). -/
theorem C2_keep_difficult (cti : List (String × ℕ)) (target : List VOCObject) (w h : ℚ) :
    (VOCAnnTransform.call ⟨cti, false⟩ w h target =
      VOCAnnTransform.call ⟨cti, false⟩ w h
        (target.filter (fun o => !(o.difficult == 1))))
    ∧ (∀ res, VOCAnnTransform.call ⟨cti, true⟩ w h target = .ok res →
        res.length = target.length) := by
  constructor
  · induction target with
    | nil => rfl
    | cons obj rest ih =>
      by_cases hd : obj.difficult = 1
      · simp [VOCAnnTransform.call, List.filter_cons, hd]
        exact ih
      · simp only [List.filter_cons,
          show ((obj.difficult == 1) : Bool) = false from by simp [hd],
          Bool.not_false, if_true]
        simp only [VOCAnnTransform.call,
          show ((false = false ∧ obj.difficult = 1) = False) from by simp [hd], if_false]
        cases cti.lookup (pyStrip (pyLower obj.name)) with
        | none => simp [hd]
        | some lab => simp [hd, ih]
  · induction target with
    | nil =>
      intro res hres
      cases hres
      rfl
    | cons obj rest ih =>
      intro res hres
      simp only [VOCAnnTransform.call,
        show ((true = false ∧ obj.difficult = 1) = False) from by simp, if_false] at hres
      cases hlk : cti.lookup (pyStrip (pyLower obj.name)) with
      | none => rw [hlk] at hres; cases hres
      | some lab =>
        rw [hlk] at hres
        cases hrec : VOCAnnTransform.call ⟨cti, true⟩ w h rest with
        | error e => rw [hrec] at hres; cases hres
        | ok res' =>
          rw [hrec] at hres
          cases hres
          simpa using ih res' hrec

unseal Rat.mul Rat.inv in
theorem C2_witness :
    (VOCAnnTransform.call ⟨defaultClassToInd, false⟩ 10 10
        [⟨1, "dog", 1, 1, 1, 1⟩, ⟨0, "cat", 1, 1, 1, 1⟩] =
      VOCAnnTransform.call ⟨defaultClassToInd, false⟩ 10 10
        ([⟨1, "dog", 1, 1, 1, 1⟩, ⟨0, "cat", 1, 1, 1, 1⟩].filter
          (fun o => !(o.difficult == 1))))
    ∧ ([[0, 0, 0, 0, (11 : ℚ)], [0, 0, 0, 0, 7]] : List (List ℚ)).length =
        ([⟨1, "dog", 1, 1, 1, 1⟩, ⟨0, "cat", 1, 1, 1, 1⟩] : List VOCObject).length :=
  ⟨(C2_keep_difficult defaultClassToInd [⟨1, "dog", 1, 1, 1, 1⟩, ⟨0, "cat", 1, 1, 1, 1⟩] 10 10).1,
   (C2_keep_difficult defaultClassToInd [⟨1, "dog", 1, 1, 1, 1⟩, ⟨0, "cat", 1, 1, 1, 1⟩] 10 10).2
     [[0, 0, 0, 0, (11 : ℚ)], [0, 0, 0, 0, 7]] (by decide)⟩

unseal Rat.mul Rat.inv in
/-- C3: every `bndbox` coordinate is decremented by 1 before positional
normalization (an XML `xmin = 1` yields numerator 0), and the non-difficult
`dog` box (97,14,439,333) on a 500×375 image yields
`(96/500, 13/375, 438/500, 332/375)` with the vocabulary index of "dog". -/
theorem C3_decrement_scenario :
    (∀ (o : VOCObject) (w h : ℚ),
      objBndbox o w h =
        [((o.xmin - 1 : ℤ) : ℚ) / w, ((o.ymin - 1 : ℤ) : ℚ) / h,
         ((o.xmax - 1 : ℤ) : ℚ) / w, ((o.ymax - 1 : ℤ) : ℚ) / h])
    ∧ objBndbox ⟨0, "dog", 1, 1, 1, 1⟩ 500 375 = [0, 0, 0, 0]
    ∧ VOCAnnTransform.call VOCAnnTransform.mkDefault 500 375
        [⟨0, "dog", 97, 14, 439, 333⟩] =
        .ok [[96 / 500, 13 / 375, 438 / 500, 332 / 375, 11]]
    ∧ defaultClassToInd.lookup "dog" = some 11 := by
  refine ⟨?_, by decide, by decide, by decide⟩
  intro o w h
  simp [objBndbox, normalizeCoords, normalizeFrom, scalePoint]

/-- C4 counterexample: a missing manifest file makes construction fail with
`FileNotFoundError` (from `open`), not with `IndexError` as claimed. -/
theorem C4_counterexample :
    buildIds (fun _ => none) "r" [("2007", "trainval")] =
      .error (.fileNotFound "r/VOC2007/ImageSets/Main/trainval.txt")
    ∧ buildIds (fun _ => none) "r" [("2007", "trainval")] ≠ .error .indexError := by
  constructor <;> decide

/-- C4 amended: if any selector's manifest file is missing, adapter
construction fails with a `FileNotFoundError` naming a manifest path. -/
theorem C4_missing_manifest (fs : String → Option (List String)) (root : String)
    (sets : List (String × String))
    (hmiss : ∃ yn ∈ sets,
      fs (root ++ "/VOC" ++ yn.1 ++ "/ImageSets/Main/" ++ yn.2 ++ ".txt") = none) :
    ∃ p, buildIds fs root sets = .error (.fileNotFound p) := by
  induction sets with
  | nil => simp at hmiss
  | cons yn rest ih =>
    obtain ⟨year, name⟩ := yn
    obtain ⟨zn, hz, hnone⟩ := hmiss
    rcases List.mem_cons.mp hz with rfl | hz'
    · refine ⟨root ++ "/VOC" ++ year ++ "/ImageSets/Main/" ++ name ++ ".txt", ?_⟩
      simp only at hnone
      simp [buildIds, hnone]
    · cases hfs : fs (root ++ "/VOC" ++ year ++ "/ImageSets/Main/" ++ name ++ ".txt") with
      | none =>
        exact ⟨root ++ "/VOC" ++ year ++ "/ImageSets/Main/" ++ name ++ ".txt",
          by simp [buildIds, hfs]⟩
      | some ls =>
        obtain ⟨p, hp⟩ := ih ⟨zn, hz', hnone⟩
        refine ⟨p, ?_⟩
        simp only [buildIds, hfs, hp, Except.map]

theorem C4_witness :
    ∃ p, buildIds (fun _ => none) "r" [("2007", "trainval")] =
      .error (.fileNotFound p) :=
  C4_missing_manifest (fun _ => none) "r" [("2007", "trainval")]
    ⟨("2007", "trainval"), by decide, rfl⟩

/-- C5 counterexample: with no augmentation transform the retrieved image is
only axis-permuted; its channel axis is not reversed, contradicting
"reversed ... regardless of whether an augmentation transform was
supplied". -/
theorem C5_counterexample :
    pull_item_img none ([[((1 : ℕ), 2, 3)]] : Image ℕ) = ([[1]], [[2]], [[3]])
    ∧ pull_item_img none ([[((1 : ℕ), 2, 3)]] : Image ℕ) ≠
        permuteCHW (channelReverse ([[((1 : ℕ), 2, 3)]] : Image ℕ)) := by
  constructor <;> decide

/-- C5 amended: retrieval always permutes the axes from (H, W, C) to
(C, H, W); the channel reversal from storage (BGR) order to RGB happens
exactly when an augmentation transform is supplied — without one the
channels stay in storage order. -/
theorem C5_channel_permute (img : Image ℚ) (f : Image ℚ → Image ℚ) (hh ww : ℕ) :
    planeAt (pull_item_img none img).1 hh ww = (pixelAt img hh ww).map (fun p => p.1)
    ∧ planeAt (pull_item_img none img).2.1 hh ww = (pixelAt img hh ww).map (fun p => p.2.1)
    ∧ planeAt (pull_item_img none img).2.2 hh ww = (pixelAt img hh ww).map (fun p => p.2.2)
    ∧ planeAt (pull_item_img (some f) img).1 hh ww =
        (pixelAt (f img) hh ww).map (fun p => p.2.2)
    ∧ planeAt (pull_item_img (some f) img).2.1 hh ww =
        (pixelAt (f img) hh ww).map (fun p => p.2.1)
    ∧ planeAt (pull_item_img (some f) img).2.2 hh ww =
        (pixelAt (f img) hh ww).map (fun p => p.1) := by
  refine ⟨planeAt_permute1 img hh ww, planeAt_permute2 img hh ww,
    planeAt_permute3 img hh ww, ?_, ?_, ?_⟩
  · show planeAt (permuteCHW (channelReverse (f img))).1 hh ww = _
    rw [planeAt_permute1, pixelAt_channelReverse, Option.map_map]
    rfl
  · show planeAt (permuteCHW (channelReverse (f img))).2.1 hh ww = _
    rw [planeAt_permute2, pixelAt_channelReverse, Option.map_map]
    rfl
  · show planeAt (permuteCHW (channelReverse (f img))).2.2 hh ww = _
    rw [planeAt_permute3, pixelAt_channelReverse, Option.map_map]
    rfl

/-- C6: the plate adapter's selected index list has size
`min 30000 (pool size)`, contains no duplicates, and when the pool holds
fewer than 30000 files the selection contains every candidate. -/
theorem C6_subsample (temp : List String) (perm : List ℕ)
    (hperm : perm.Perm (List.range temp.length)) :
    (lpSelected perm).length = min LP_CAP temp.length
    ∧ (lpSelected perm).Nodup
    ∧ (temp.length < LP_CAP → ∀ s ∈ temp, s ∈ lpSelect temp perm) := by
  have hlen : perm.length = temp.length := by simpa using hperm.length_eq
  refine ⟨?_, ?_, ?_⟩
  · simp [lpSelected, List.length_take, hlen]
  · exact ((List.take_sublist _ _).nodup (hperm.nodup_iff.mpr (List.nodup_range _)))
  · intro hlt s hs
    have htake : lpSelected perm = perm :=
      List.take_of_length_le (by omega)
    obtain ⟨i, hi, rfl⟩ := List.mem_iff_getElem.mp hs
    have hip : i ∈ perm := hperm.mem_iff.mpr (List.mem_range.mpr hi)
    refine List.mem_map.mpr ⟨i, ?_, ?_⟩
    · rw [htake]; exact hip
    · rw [List.getD_eq_getElem?_getD, List.getElem?_eq_getElem hi]
      rfl

theorem C6_witness :
    (lpSelected [2, 0, 1]).length = min LP_CAP (["a", "b", "c"] : List String).length
    ∧ (lpSelected [2, 0, 1]).Nodup
    ∧ ((["a", "b", "c"] : List String).length < LP_CAP →
        ∀ s ∈ (["a", "b", "c"] : List String), s ∈ lpSelect ["a", "b", "c"] [2, 0, 1]) :=
  C6_subsample ["a", "b", "c"] [2, 0, 1] (by decide)

unseal Rat.mul Rat.inv in
/-- C7: the line `"img.jpg\tHELLO\t10\t20\t110\t220"` on a 200×400 image
parses into text label `"HELLO"` (field 1, leading whitespace stripped) and
the normalized target `[10/200, 20/400, 110/200, 220/400, 0]`, which equals
`[0.05, 0.05, 0.55, 0.55, 0]`; the coordinates come from fields 2-5 as
integers with no decrement and the class index is the fixed 0. -/
theorem C7_tab_separated :
    (ImgDataset.parseFields "img.jpg\tHELLO\t10\t20\t110\t220").map
        (fun f => (ocrTarget1 f 200 400, pyLStrip f.field1)) =
      some ([[10 / 200, 20 / 400, 110 / 200, 220 / 400, 0]], "HELLO")
    ∧ ([[(10 : ℚ) / 200, 20 / 400, 110 / 200, 220 / 400, 0]] : List (List ℚ)) =
        [[1 / 20, 1 / 20, 11 / 20, 11 / 20, 0]] := by
  constructor <;> decide

/-- C8: the default class vocabulary maps every class name to a unique index
in `[0, count-1]`, and every such index is attained: a bijection between the
fixed name list and the integer interval. -/
theorem C8_vocab_bijection :
    (∀ n ∈ VOC_CLASSES, ∃ i < VOC_CLASSES.length, defaultClassToInd.lookup n = some i)
    ∧ (∀ m ∈ VOC_CLASSES, ∀ n ∈ VOC_CLASSES,
        defaultClassToInd.lookup m = defaultClassToInd.lookup n → m = n)
    ∧ (∀ i < VOC_CLASSES.length, ∃ n ∈ VOC_CLASSES,
        defaultClassToInd.lookup n = some i) := by
  refine ⟨?_, ?_, ?_⟩ <;> decide

theorem C8_witness :
    ∃ i < VOC_CLASSES.length, defaultClassToInd.lookup "dog" = some i :=
  C8_vocab_bijection.1 "dog" (by decide)

/-- C9: `pull_anno` applies the annotation transform with width and height
both 1, so every returned coordinate equals the XML integer minus 1
(un-normalized 0-based pixel coordinates), independent of the actual image
dimensions. -/
theorem C9_pull_anno_raw (t : VOCAnnTransform) (anno : List VOCObject) :
    pull_anno_gt t anno = rawPixelGT t anno := by
  induction anno with
  | nil => rfl
  | cons obj rest ih =>
    unfold pull_anno_gt at ih ⊢
    simp only [VOCAnnTransform.call, rawPixelGT]
    by_cases hd : t.keep_difficult = false ∧ obj.difficult = 1
    · simp [hd, ih]
    · simp only [if_neg hd]
      cases t.class_to_ind.lookup (pyStrip (pyLower obj.name)) with
      | none => rfl
      | some lab =>
        rw [ih]
        cases rawPixelGT t rest with
        | error e => rfl
        | ok res =>
          simp [objBndbox, normalizeCoords, normalizeFrom, scalePoint, div_one]

theorem isError_bind {α β : Type} {x : Except PyError α} {f : α → Except PyError β}
    (hf : ∀ a, isError (f a)) : isError (Except.bind x f) := by
  cases x with
  | error e => trivial
  | ok a => exact hf a

theorem isError_ne_ok {α : Type} {x : Except PyError α} (h : isError x) (res : α) :
    x ≠ .ok res := by
  intro hc
  rw [hc] at h
  exact h

/-- With no augmentation transform, plate retrieval never returns: whatever
else happens, the `return` line's read of the branch-local `target` can only
be reached unassigned. -/
theorem lp_none_isError (tbl : LPTables) (tt : Option (String → List ℕ × ℕ))
    (fname : String) (img : Image ℚ) (w h : ℚ) :
    isError (LPDataset.getItem tbl none tt fname img w h) := by
  unfold LPDataset.getItem
  refine isError_bind (fun per_name => ?_)
  refine isError_bind (fun f2 => ?_)
  refine isError_bind (fun temp => ?_)
  refine isError_bind (fun t0 => ?_)
  refine isError_bind (fun t1 => ?_)
  refine isError_bind (fun t2 => ?_)
  refine isError_bind (fun t3 => ?_)
  refine isError_bind (fun f4 => ?_)
  refine isError_bind (fun label => ?_)
  refine isError_bind (fun l0 => ?_)
  refine isError_bind (fun l1 => ?_)
  refine isError_bind (fun p0 => ?_)
  refine isError_bind (fun a1 => ?_)
  refine isError_bind (fun rest => ?_)
  refine isError_bind (fun textPair => ?_)
  trivial

unseal Rat.mul Rat.inv in
/-- C10 counterexample: with an augmentation transform supplied and
`target_transform = None`, the plate variant's retrieval on a standard CCPD
filename returns successfully — `data` is bound to the coordinate chunks
(line 278) and `target` is bound in the transform branch (line 292) — with
text and text_length silently set to coordinate substrings.  This refutes
"every call to get(index) fails with an unbound-local error before
returning". -/
theorem C10_counterexample :
    LPDataset.getItem LPTables.mkDefault (some (fun i b l => (i, b, l))) none
        "025-95_113-154&383_386&473-386&473_177&454_154&383_363&402-0_0_22_27_27_33_16-37-15.jpg"
        [[(1, 2, 3)]] 720 1160 =
      .ok (([[3]], [[2]], [[1]]),
        [[154 / 720, 383 / 1160, 386 / 720, 473 / 1160, 0]],
        Sum.inl "154&383", Sum.inl "386&473",
        [154 / 720, 383 / 1160, 386 / 720, 473 / 1160]) := by
  decide

unseal Rat.mul Rat.inv in
/-- C10 amended: with `target_transform = None` the OCR variant always fails
with `UnboundLocalError` on `data` (whatever the augmentation transform,
whenever line parsing succeeds); the plate variant fails with an
unbound-local error only when the augmentation transform is also missing —
then the `return` line's read of the branch-local `target` fails, with or
without a text-target transform — and with an augmentation transform
supplied it returns, text and text_length silently set to coordinate
substrings, so the text-target transform is not required for plate
retrieval to succeed. -/
theorem C10_unbound_local (tf : Option AugTransform) (line : String)
    (img : Image ℚ) (w h : ℚ) (f : OCRFields)
    (hf : ImgDataset.parseFields line = some f)
    (tbl : LPTables) (tt : Option (String → List ℕ × ℕ)) (fname : String)
    (img2 : Image ℚ) (w2 h2 : ℚ)
    (res : (List (List ℚ) × List (List ℚ) × List (List ℚ)) ×
      List (List ℚ) × (String ⊕ List ℕ) × (String ⊕ ℕ) × List ℚ) :
    ImgDataset.getItem tf none line img w h = .error (.unboundLocalError "data")
    ∧ LPDataset.getItem tbl none tt fname img2 w2 h2 ≠ .ok res
    ∧ LPDataset.getItem LPTables.mkDefault none none
        "025-95_113-154&383_386&473-386&473_177&454_154&383_363&402-0_0_22_27_27_33_16-37-15.jpg"
        [[(1, 2, 3)]] 720 1160 = .error (.unboundLocalError "target")
    ∧ LPDataset.getItem LPTables.mkDefault none (some (fun s => ([s.length], s.length)))
        "025-95_113-154&383_386&473-386&473_177&454_154&383_363&402-0_0_22_27_27_33_16-37-15.jpg"
        [[(1, 2, 3)]] 720 1160 = .error (.unboundLocalError "target") := by
  refine ⟨?_, isError_ne_ok (lp_none_isError tbl tt fname img2 w2 h2) res,
    by decide, by decide⟩
  simp [ImgDataset.getItem, hf]

unseal Rat.mul Rat.inv in
theorem C10_witness :
    ImgDataset.getItem none none "img.jpg\tHELLO\t10\t20\t110\t220" [[(1, 2, 3)]] 200 400 =
      .error (.unboundLocalError "data")
    ∧ LPDataset.getItem LPTables.mkDefault none none "a" [[(1, 2, 3)]] 1 1 ≠
        .ok (([[1]], [[2]], [[3]]), [], Sum.inl "", Sum.inl "", [])
    ∧ LPDataset.getItem LPTables.mkDefault none none
        "025-95_113-154&383_386&473-386&473_177&454_154&383_363&402-0_0_22_27_27_33_16-37-15.jpg"
        [[(1, 2, 3)]] 720 1160 = .error (.unboundLocalError "target")
    ∧ LPDataset.getItem LPTables.mkDefault none (some (fun s => ([s.length], s.length)))
        "025-95_113-154&383_386&473-386&473_177&454_154&383_363&402-0_0_22_27_27_33_16-37-15.jpg"
        [[(1, 2, 3)]] 720 1160 = .error (.unboundLocalError "target") :=
  C10_unbound_local none "img.jpg\tHELLO\t10\t20\t110\t220" [[(1, 2, 3)]] 200 400
    ⟨"HELLO", 10, 20, 110, 220⟩ (by decide) LPTables.mkDefault none "a" [[(1, 2, 3)]] 1 1
    (([[1]], [[2]], [[3]]), [], Sum.inl "", Sum.inl "", [])

end CLPR
